import Mathlib

/-!
Verification of the EduAssist-AI resource-processing pipeline.

This file gives a shallow embedding of the pipeline code (status tracker,
dispatch fallback, the synchronous and Celery video pipelines, the document
path, the chunker, the vector-store retrieval layer and the delete routes)
and proves or refutes the specification claims about it.

Conventions of the embedding:
* MongoDB documents become Lean structures; a `$set`/`$unset` update becomes a
  functional record update.
* External effects (file system, Whisper transcription, the RAG indexing call,
  the broker connection) are supplied through explicit environment records.
* Python floats that only ever carry the constants 0.0 / 0.9 / 1.0 / 30.0 are
  represented as natural numbers (confidence as a percentage, times in
  seconds); no claim depends on float arithmetic.
-/

namespace EduAssist

/-! ## Data model -/

/-- Lifecycle status of a resource/video record (the `status` field written by
the routes and tasks: PENDING, PROCESSING, COMPLETE, FAILED). -/
inductive Status
  | PENDING
  | PROCESSING
  | COMPLETE
  | FAILED
deriving DecidableEq, Repr

/-- The status-bearing fields of a `videos` / `resources` MongoDB document.
`progress`, `current_step` and `estimated_time_remaining` are `Option` because
the code `$unset`s them on terminal writes; `error_message` is only written by
the route-level fallback handlers. -/
structure Resource where
  status : Status
  error_message : Option String := none
  progress : Option Nat := none
  current_step : Option String := none
  estimated_time_remaining : Option Nat := none
  duration_seconds : Nat := 0
  processed_at_set : Bool := false
deriving DecidableEq, Repr

/-- A transcript segment as stored in the `transcripts` collection
(`{start, end, text}`; `end` is a reserved word in Lean, hence `stop`). -/
structure TranscriptSegment where
  start : Nat
  stop : Nat
  text : String
deriving DecidableEq, Repr

/-! ## Status tracker (`app/tasks.py`, `update_video_status`) -/

/-- `update_video_status` from `app/tasks.py` (lines 214-247), applied to the
record it updates.  When `status == "PROCESSING"` it `$set`s all four transient
fields; otherwise it `$set`s only `status` and `$unset`s `progress`,
`current_step` and `estimated_time_remaining`.  Note that in the non-PROCESSING
branch the `current_step` argument (through which callers pass error text) is
discarded and `error_message` is never touched. -/
def update_video_status (r : Resource) (status : Status) (progress : Nat)
    (current_step : String) (estimated_time : Nat) : Resource :=
  if status = Status.PROCESSING then
    { r with
      status := status
      progress := some progress
      current_step := some current_step
      estimated_time_remaining := some estimated_time }
  else
    { r with
      status := status
      progress := none
      current_step := none
      estimated_time_remaining := none }

/-! ## Queued dispatch and the broker-unavailable fallback
(`app/routes/videos.py` `upload_video` step 5, `app/routes/resources.py`
`upload_resource` step 5 for the video branch) -/

/-- Outcome of the enqueue step of a queued upload: the persisted record after
the step and the `status` string placed in the HTTP response body. -/
structure QueuedDispatchResult where
  resource : Resource
  response_status : String
deriving DecidableEq, Repr

/-- The `videos` document inserted by `upload_video` (queued route): status
starts at `PENDING`, no transient fields, duration 0, `processed_at = None`. -/
def initial_video_doc : Resource :=
  { status := Status.PENDING }

/-- Step 5 of `upload_video` (`app/routes/videos.py` lines 132-170) together
with the response construction.  `broker_available` models whether
`process_video_task.delay` succeeds; on failure the handler runs
`update_video_status(video_id, "FAILED", 100, "Processing service unavailable: "
+ e, 0)` and then `$set`s `status = "FAILED"` and the `error_message` on the
document.  The response always carries `status="PENDING"`. -/
def upload_video_dispatch (broker_available : Bool) (broker_error : String)
    (r : Resource) : QueuedDispatchResult :=
  if broker_available then
    { resource := r, response_status := "PENDING" }
  else
    let msg := "Processing service unavailable: " ++ broker_error
    let r1 := update_video_status r Status.FAILED 100 msg 0
    let r2 := { r1 with status := Status.FAILED, error_message := some msg }
    { resource := r2, response_status := "PENDING" }

/-- The corresponding step of `upload_resource` (`app/routes/resources.py`
lines 189-229) for a video-typed resource: identical fallback, and the
response carries `resource_doc["status"]`, which for the video branch was
inserted as `"PENDING"` and is not re-read after the fallback update. -/
def upload_resource_video_dispatch (broker_available : Bool)
    (broker_error : String) (r : Resource) : QueuedDispatchResult :=
  if broker_available then
    { resource := r, response_status := "PENDING" }
  else
    let msg := "Processing service unavailable: " ++ broker_error
    let r1 := update_video_status r Status.FAILED 100 msg 0
    let r2 := { r1 with status := Status.FAILED, error_message := some msg }
    { resource := r2, response_status := "PENDING" }

/-- `msg` contains `pat` as a substring. -/
def mentions (msg pat : String) : Prop :=
  ∃ pre suf : String, msg = pre ++ pat ++ suf

/-! ## Video pipeline (sync route and Celery task)

The stage sequence of `upload_video_sync` (`app/routes/videos.py` lines
287-438) and `process_video_task` (`app/tasks.py` lines 22-212) is embedded as
a function from an explicit environment to the sequence of status-tracker
writes, the final record and the inserted transcript. -/

/-- Where the uploaded bytes live: Google Drive reference or a local path
(the `storage_type` field, `"drive"` / `"local"`). -/
inductive StorageType
  | drive
  | localDisk
deriving DecidableEq, Repr

/-- External effects the video pipeline depends on:
`file_exists` models `os.path.exists(storage_url)`;
`transcription` is the result of the Whisper pipeline when the file exists
(`AudioProcessor.process_video_for_transcription` returns `None` on any
conversion/transcription failure);
`rag_raises`/`rag_error` model `add_video_content_to_rag` raising. -/
structure VideoEnv where
  file_exists : Bool
  transcription : Option String
  rag_raises : Bool
  rag_error : String
deriving DecidableEq, Repr

/-- `AudioProcessor.process_video_for_transcription`
(`app/utils/audio_processor.py` lines 183-233): returns `None` when the video
file does not exist at the path (logged, not raised), otherwise the
transcription result (which may itself be `None`). -/
def process_video_for_transcription (env : VideoEnv) : Option String :=
  if env.file_exists then env.transcription else none

/-- The `VideoContent` record built by the routes/task: one simplified
segment, a word count, a confidence (percent) and a fixed 30 s duration. -/
structure VideoContent where
  transcript_segments : List TranscriptSegment
  word_count : Nat
  confidence_pct : Nat
  video_duration : Nat
deriving DecidableEq, Repr

/-- Python `str.split()` tokenisation: split into maximal runs of
non-whitespace characters (empty tokens never appear).  `cur` accumulates the
current run in reverse. -/
def words_aux : List Char → List Char → List String
  | [], cur => if cur.isEmpty then [] else [String.mk cur.reverse]
  | c :: cs, cur =>
    if c.isWhitespace then
      if cur.isEmpty then words_aux cs []
      else String.mk cur.reverse :: words_aux cs []
    else words_aux cs (c :: cur)

/-- Python `str.split()`: whitespace-delimited words of a string. -/
def words (text : String) : List String :=
  words_aux text.data []

/-- Python `len(s.split())` word count. -/
def count_words (s : String) : Nat :=
  (words s).length

/-- Python slicing `s[:n]` (by characters). -/
def take_chars (s : String) (n : Nat) : String :=
  String.mk (s.data.take n)

/-- Content built from a successful transcription `t`
(`transcription[:500]` as a single 0-30 s segment, confidence 0.9). -/
def transcribed_video_content (t : String) : VideoContent :=
  { transcript_segments := [⟨0, 30, take_chars t 500⟩]
    word_count := count_words t
    confidence_pct := 90
    video_duration := 30 }

/-- Placeholder content when transcription returns nothing
("Video processing failed", confidence 0.0). -/
def failed_video_content : VideoContent :=
  { transcript_segments := [⟨0, 1, "Video processing failed"⟩]
    word_count := 3
    confidence_pct := 0
    video_duration := 30 }

/-- Drive placeholder content in the sync routes (word_count 0). -/
def sync_drive_video_content : VideoContent :=
  { transcript_segments :=
      [⟨0, 30, "Transcription not available for Google Drive files in this mock implementation"⟩]
    word_count := 0
    confidence_pct := 0
    video_duration := 30 }

/-- Drive placeholder content in the Celery task (word_count 9). -/
def task_drive_video_content : VideoContent :=
  { transcript_segments :=
      [⟨0, 30, "Drive file processing requires additional implementation"⟩]
    word_count := 9
    confidence_pct := 0
    video_duration := 30 }

/-- Extraction step of the sync routes for local storage
(`app/routes/videos.py` lines 330-360): raise if the path is empty, raise
`"Video file does not exist at path: ..."` if the file is missing, otherwise
degrade a failed transcription to the placeholder content. -/
def sync_local_video_content (env : VideoEnv) (storage_url : String) :
    Except String VideoContent :=
  if storage_url = "" then
    Except.error "No file path provided for local storage type"
  else if env.file_exists = false then
    Except.error ("Video file does not exist at path: " ++ storage_url)
  else
    match env.transcription with
    | some t => Except.ok (transcribed_video_content t)
    | none => Except.ok failed_video_content

/-- Extraction step of the Celery task for local storage (`app/tasks.py`
lines 89-114): raise only if the path is empty; there is NO existence check,
and a `None` transcription (including the missing-file case) degrades to the
placeholder content. -/
def task_local_video_content (env : VideoEnv) (storage_url : String) :
    Except String VideoContent :=
  if storage_url = "" then
    Except.error "No file path provided for local storage type"
  else
    match process_video_for_transcription env with
    | some t => Except.ok (transcribed_video_content t)
    | none => Except.ok failed_video_content

/-- One call to `update_video_status`, as observed in order. -/
structure StatusWrite where
  status : Status
  progress : Nat
  current_step : String
  estimated_time : Nat
deriving DecidableEq, Repr

/-- The result of one pipeline attempt: the tracker writes in order, the final
record, the transcript segments inserted (if any), and the message of the
HTTP 500 re-raised by the sync route (if any). -/
structure PipelineRun where
  writes : List StatusWrite
  resource : Resource
  transcript : Option (List TranscriptSegment)
  raised : Option String
deriving DecidableEq, Repr

/-- The five stage writes shared by both pipelines. -/
def start_write : StatusWrite := ⟨Status.PROCESSING, 0, "Starting video processing", 300⟩

def extract_write : StatusWrite := ⟨Status.PROCESSING, 30, "Extracting transcript", 240⟩

def index_write : StatusWrite := ⟨Status.PROCESSING, 60, "Indexing content for search", 180⟩

def visual_write : StatusWrite := ⟨Status.PROCESSING, 80, "Processing visual content", 120⟩

def complete_write : StatusWrite := ⟨Status.COMPLETE, 100, "Processing completed", 0⟩

def fail_write (e : String) : StatusWrite := ⟨Status.FAILED, 100, e, 0⟩

/-- Step 5 of `upload_video_sync` (`app/routes/videos.py` lines 287-438),
starting from the record `r0` inserted with status PROCESSING.  The `except`
handler runs `update_video_status(_, "FAILED", 100, str(e), 0)`, `$set`s
`error_message`, and re-raises an HTTP 500. -/
def upload_video_sync_process (env : VideoEnv) (storage_type : StorageType)
    (storage_url : String) (r0 : Resource) : PipelineRun :=
  let r1 := update_video_status r0 Status.PROCESSING 0 "Starting video processing" 300
  let content :=
    match storage_type with
    | StorageType.drive => Except.ok sync_drive_video_content
    | StorageType.localDisk => sync_local_video_content env storage_url
  match content with
  | Except.error e =>
    let rf := update_video_status r1 Status.FAILED 100 e 0
    { writes := [start_write, fail_write e]
      resource := { rf with error_message := some e }
      transcript := none
      raised := some ("Video processing failed: " ++ e) }
  | Except.ok vc =>
    let r2 := update_video_status r1 Status.PROCESSING 30 "Extracting transcript" 240
    let r3 := update_video_status r2 Status.PROCESSING 60 "Indexing content for search" 180
    if env.rag_raises then
      let rf := update_video_status r3 Status.FAILED 100 env.rag_error 0
      { writes := [start_write, extract_write, index_write, fail_write env.rag_error]
        resource := { rf with error_message := some env.rag_error }
        transcript := some vc.transcript_segments
        raised := some ("Video processing failed: " ++ env.rag_error) }
    else
      let r4 := update_video_status r3 Status.PROCESSING 80 "Processing visual content" 120
      let r5 := update_video_status r4 Status.COMPLETE 100 "Processing completed" 0
      { writes := [start_write, extract_write, index_write, visual_write, complete_write]
        resource := { r5 with
          status := Status.COMPLETE
          duration_seconds := vc.video_duration
          processed_at_set := true }
        transcript := some vc.transcript_segments
        raised := none }

/-- `process_video_task` (`app/tasks.py` lines 22-212), starting from the
record `r0` (inserted with status PENDING by the queued route).  Its `except`
handler only calls `update_video_status(_, "FAILED", 100, str(e), 0)` — it
does NOT persist any `error_message` — and the task returns a dict instead of
raising. -/
def process_video_task (env : VideoEnv) (storage_type : StorageType)
    (storage_url : String) (r0 : Resource) : PipelineRun :=
  let r1 := update_video_status r0 Status.PROCESSING 0 "Starting video processing" 300
  let content :=
    match storage_type with
    | StorageType.drive => Except.ok task_drive_video_content
    | StorageType.localDisk => task_local_video_content env storage_url
  match content with
  | Except.error e =>
    { writes := [start_write, fail_write e]
      resource := update_video_status r1 Status.FAILED 100 e 0
      transcript := none
      raised := none }
  | Except.ok vc =>
    let r2 := update_video_status r1 Status.PROCESSING 30 "Extracting transcript" 240
    let r3 := update_video_status r2 Status.PROCESSING 60 "Indexing content for search" 180
    if env.rag_raises then
      { writes := [start_write, extract_write, index_write, fail_write env.rag_error]
        resource := update_video_status r3 Status.FAILED 100 env.rag_error 0
        transcript := some vc.transcript_segments
        raised := none }
    else
      let r4 := update_video_status r3 Status.PROCESSING 80 "Processing visual content" 120
      let r5 := update_video_status r4 Status.COMPLETE 100 "Processing completed" 0
      { writes := [start_write, extract_write, index_write, visual_write, complete_write]
        resource := { r5 with
          status := Status.COMPLETE
          duration_seconds := vc.video_duration
          processed_at_set := true }
        transcript := some vc.transcript_segments
        raised := none }

/-! ## Document path (`app/utils/document_processor.py`,
`app/routes/resources.py` document branches) -/

/-- Declared resource type derived from the upload content type. -/
inductive ResourceType
  | video
  | pdf
  | docx
  | txt
  | unknown
deriving DecidableEq, Repr

/-- The outcome of the format-specific reader for a document: the readers
(`read_pdf`, `read_docx`, `read_txt`) catch every exception (missing file,
corrupt file) and return `None` instead of raising. -/
structure DocEnv where
  extracted : Option String
deriving DecidableEq, Repr

/-- `DocumentProcessor.process_document` (`app/utils/document_processor.py`
lines 100-121): dispatch on the declared type; unsupported types yield `None`;
the readers themselves never raise. -/
def process_document (env : DocEnv) (file_type : ResourceType) : Option String :=
  match file_type with
  | ResourceType.pdf => env.extracted
  | ResourceType.docx => env.extracted
  | ResourceType.txt => env.extracted
  | _ => none

/-- `DocumentProcessor.save_document_content` (lines 123-164): the inserted
transcript document — one segment spanning the whole content with `start = end
= 0`, and `word_count = len(content.split())`. -/
def save_document_content (content : String) : List TranscriptSegment × Nat :=
  ([⟨0, 0, content⟩], count_words content)

/-- Result of one document-upload processing step. `indexed_embeddings` counts
the embedding records written to the vector store during the step. -/
structure DocumentRun where
  resource : Resource
  transcript : Option (List TranscriptSegment × Nat)
  indexed_embeddings : Nat
  raised : Option String
deriving DecidableEq, Repr

/-- The `resources` document inserted for a pdf/docx/txt upload (status starts
at PROCESSING on both document routes). -/
def initial_document_doc : Resource :=
  { status := Status.PROCESSING }

/-- Step 5 of `upload_resource` (`app/routes/resources.py` lines 164-188) for
pdf/docx/txt: extraction runs inside a `try` whose handler only prints, and
the status is then set to COMPLETE unconditionally.  No chunking or vector
indexing is performed anywhere on this path, so `indexed_embeddings = 0`. -/
def upload_resource_document (env : DocEnv) (file_type : ResourceType)
    (r0 : Resource) : DocumentRun :=
  let tr :=
    match process_document env file_type with
    | some content => some (save_document_content content)
    | none => none
  { resource := { r0 with
      status := Status.COMPLETE
      processed_at_set := true
      duration_seconds := 0 }
    transcript := tr
    indexed_embeddings := 0
    raised := none }

/-- Step 5 of `upload_resource_sync` (`app/routes/resources.py` lines 370-388)
for pdf/docx/txt: identical behaviour — a `None` extraction only prints a
warning and the resource is still marked COMPLETE; the surrounding `except`
branch is unreachable because neither `process_document` nor
`save_document_content` lets an exception escape. -/
def upload_resource_sync_document (env : DocEnv) (file_type : ResourceType)
    (r0 : Resource) : DocumentRun :=
  let tr :=
    match process_document env file_type with
    | some content => some (save_document_content content)
    | none => none
  { resource := { r0 with
      status := Status.COMPLETE
      processed_at_set := true }
    transcript := tr
    indexed_embeddings := 0
    raised := none }

/-! ## Chunker

`app/rag/generator.py` imports `TextChunker` from `app.rag.chunking`, but
`app/rag/chunking.py` is not part of the repository sources; only its
call sites (`chunk_text` over a text, constructed with a chunk size and a
chunk overlap) are.  The chunker is therefore modelled from the spec. -/

/-- Modelled from the spec: window recursion of the chunker, with an explicit
`fuel` argument bounding the number of emitted chunks so that the recursion is
structural.  Every recursive step consumes at least one word, so `fuel =
ws.length` is always sufficient (see `chunk_words`). -/
def chunk_words_go (fuel maxWords overlapWords : Nat) (ws : List String) :
    List (List String) :=
  match fuel with
  | 0 => []
  | fuel + 1 =>
    if ws.length = 0 then []
    else if ws.length ≤ maxWords then [ws]
    else if maxWords ≤ overlapWords then [ws]
    else
      ws.take maxWords ::
        chunk_words_go fuel maxWords overlapWords
          (ws.drop (maxWords - overlapWords))

/-- Modelled from the spec: `TextChunker.chunk_text` (module
`app/rag/chunking.py`, imported by `app/rag/generator.py` but absent from the
sources), at the word level.  Per §4.3 the chunker splits on whitespace word
boundaries, emits windows of at most `maxWords` words such that consecutive
windows share `overlapWords` words, the final chunk may be shorter, empty text
yields zero chunks and text of at most `maxWords` words yields exactly one
chunk.  The degenerate configuration `overlapWords ≥ maxWords`, which the spec
leaves undefined, is modelled as a single chunk. -/
def chunk_words (maxWords overlapWords : Nat) (ws : List String) :
    List (List String) :=
  chunk_words_go ws.length maxWords overlapWords ws

/-- Modelled from the spec: the chunker's string-level interface — split the
text into words, window them, and rejoin each window with single spaces. -/
def chunk_text (text : String) (maxWords overlapWords : Nat) : List String :=
  (chunk_words maxWords overlapWords (words text)).map (String.intercalate " ")

/-! ## Vector store and retrieval (`app/rag/generator.py`,
`app/routes/module_chat.py`) -/

/-- One record of the Chroma collection: the chunk text plus its metadata as
written by `add_video_transcript_to_rag` (`source`, `video_id`, start/end
times, `segment_index`).  Entries added by `add_documents` carry no
`video_id`.  The list order of a collection represents the store's own
relevance ranking for the query at hand, which the code delegates to Chroma. -/
structure VectorEntry where
  text : String
  source : String
  video_id : Option String
  start_time : Nat
  end_time : Nat
  segment_index : Nat
deriving DecidableEq, Repr

/-- `collection.query(..., n_results=top_k, where=where_clause)`: restrict by
metadata equality when a `where` clause is given, then return up to
`n_results` entries in ranking order.  Zero matches yield an empty list. -/
def collection_query (entries : List VectorEntry)
    (video_id_filter : Option String) (n_results : Nat) : List VectorEntry :=
  let matched : List VectorEntry :=
    match video_id_filter with
    | some vid => entries.filter (fun e => e.video_id = some vid)
    | none => entries
  matched.take n_results

/-- A formatted search result (`{"content": doc, "metadata": metadata}`). -/
structure SearchResult where
  content : String
  metadata : VectorEntry
deriving DecidableEq, Repr

/-- `RAGGenerator.search_video_content` (`app/rag/generator.py` lines 92-119):
build a `where` clause from the optional `video_id`, query the collection with
`n_results = top_k`, and zip documents with metadata. -/
def search_video_content (entries : List VectorEntry)
    (video_id : Option String) (top_k : Nat) : List SearchResult :=
  (collection_query entries video_id top_k).map (fun e => ⟨e.text, e⟩)

/-- `RAGGenerator.add_video_transcript_to_rag` (lines 63-90): for every
segment with non-empty stripped text, chunk it (chunker configured with
chunk size 512 and overlap 50) and append one entry per chunk, tagged with the
video id, the segment's times and the chunk index. -/
def add_video_transcript_to_rag (video_id : String)
    (segs : List TranscriptSegment) (entries : List VectorEntry) :
    List VectorEntry :=
  segs.foldl (fun acc s =>
    if s.text.data.all Char.isWhitespace then acc
    else
      acc ++ (chunk_text s.text 512 50).enum.map (fun p =>
        { text := p.2
          source := "video_transcript"
          video_id := some video_id
          start_time := s.start
          end_time := s.stop
          segment_index := p.1 })) entries

/-- The module-scoping step of `module_specific_chat`
(`app/routes/module_chat.py` lines 60-73): an unscoped top-5 search followed
by a client-side filter keeping only chunks whose metadata `video_id` is
truthy and belongs to the module's video-id list. -/
def module_filter_chunks (results : List SearchResult)
    (module_video_ids : List String) : List String :=
  results.filterMap (fun r =>
    match r.metadata.video_id with
    | some vid =>
      if vid ≠ "" ∧ vid ∈ module_video_ids then some r.content else none
    | none => none)

/-! ## Delete routes (`app/routes/resources.py` `delete_resource`,
`app/routes/video_processing.py` `delete_video`) -/

/-- A document of the `transcripts`/`summaries`/`quizzes` collections, keyed
by its owning resource/video id. -/
structure OwnedDoc where
  owner_id : String
deriving DecidableEq, Repr

/-- The collections touched (or not) by the delete routes. -/
structure SystemState where
  resources : List String
  videos : List String
  transcripts : List OwnedDoc
  summaries : List OwnedDoc
  quizzes : List OwnedDoc
  vector_entries : List VectorEntry
deriving DecidableEq, Repr

/-- `delete_resource` (`app/routes/resources.py` lines 992-1049): deletes the
resource record and the matching `transcripts`, `summaries` and `quizzes`
documents.  It issues no call against the vector store. -/
def delete_resource (st : SystemState) (rid : String) : SystemState :=
  { st with
    resources := st.resources.filter (fun r => r ≠ rid)
    transcripts := st.transcripts.filter (fun t => t.owner_id ≠ rid)
    summaries := st.summaries.filter (fun s => s.owner_id ≠ rid)
    quizzes := st.quizzes.filter (fun q => q.owner_id ≠ rid) }

/-- `delete_video` (`app/routes/video_processing.py` lines 187-242): deletes
the matching `transcripts` and `summaries` documents and the video record.
It issues no call against the vector store (and does not touch quizzes). -/
def delete_video (st : SystemState) (vid : String) : SystemState :=
  { st with
    videos := st.videos.filter (fun v => v ≠ vid)
    transcripts := st.transcripts.filter (fun t => t.owner_id ≠ vid)
    summaries := st.summaries.filter (fun s => s.owner_id ≠ vid) }

/-! ## Helper lemmas -/

/-- Splitting a literal prefix exhibits a substring of `L ++ e`. -/
lemma mentions_append_left {L pre pat suf : String} (e : String)
    (h : L = pre ++ pat ++ suf) : mentions (L ++ e) pat := by
  refine ⟨pre, suf ++ e, ?_⟩
  rw [h, String.append_assoc, String.append_assoc]

/-- The broker-fallback message mentions "unavailable". -/
lemma unavailable_msg_mentions (e : String) :
    mentions ("Processing service unavailable: " ++ e) "unavailable" :=
  mentions_append_left e
    (show ("Processing service unavailable: " : String)
        = "Processing service " ++ "unavailable" ++ ": " from rfl)

/-- The sync missing-file message mentions "does not exist". -/
lemma does_not_exist_msg_mentions (url : String) :
    mentions ("Video file does not exist at path: " ++ url) "does not exist" :=
  mentions_append_left url
    (show ("Video file does not exist at path: " : String)
        = "Video file " ++ "does not exist" ++ " at path: " from rfl)

/-! ## Claim C1 -/

/-- Claim C1: for a video upload dispatched in QUEUED mode, when the broker is
configured but unreachable at enqueue time, the persisted record — in both the
`upload_video` route and the video branch of `upload_resource` — ends the call
with status FAILED and an error message containing "unavailable", and is not
left at PENDING. -/
theorem claim_C1_broker_fallback_fail_fast (broker_error : String) (r : Resource) :
    ((upload_video_dispatch false broker_error r).resource.status = Status.FAILED
      ∧ (∃ msg, (upload_video_dispatch false broker_error r).resource.error_message = some msg
          ∧ mentions msg "unavailable")
      ∧ (upload_video_dispatch false broker_error r).resource.status ≠ Status.PENDING)
    ∧ ((upload_resource_video_dispatch false broker_error r).resource.status = Status.FAILED
      ∧ (∃ msg, (upload_resource_video_dispatch false broker_error r).resource.error_message = some msg
          ∧ mentions msg "unavailable")
      ∧ (upload_resource_video_dispatch false broker_error r).resource.status ≠ Status.PENDING) := by
  refine ⟨⟨?_, ⟨_, ?_, unavailable_msg_mentions broker_error⟩, ?_⟩,
          ⟨?_, ⟨_, ?_, unavailable_msg_mentions broker_error⟩, ?_⟩⟩ <;>
    simp [upload_video_dispatch, upload_resource_video_dispatch, update_video_status]

/-! ## Claim C10 -/

/-- Claim C10: the queued upload endpoints always place the string "PENDING"
in the response body's status field — even in the broker-unavailable fallback,
where the same call has already persisted status FAILED — so the response
status can disagree with the persisted status. -/
theorem claim_C10_response_always_pending (b : Bool) (e : String) (r : Resource) :
    (upload_video_dispatch b e r).response_status = "PENDING"
    ∧ (upload_resource_video_dispatch b e r).response_status = "PENDING"
    ∧ (upload_video_dispatch false e r).resource.status = Status.FAILED
    ∧ (upload_resource_video_dispatch false e r).resource.status = Status.FAILED := by
  cases b <;>
    simp [upload_video_dispatch, upload_resource_video_dispatch, update_video_status]

/-! ## Claim C2 -/

/-- Claim C2 (counterexample): a terminal FAILED write does not persist the
supplied error message.  In the Celery task, a failing attempt (empty storage
path) ends with status FAILED, all transient fields removed, and NO error
message on the record, although the handler passed the error text to the
tracker; and the tracker call itself drops the text. -/
theorem claim_C2_error_not_persisted_counterexample :
    (process_video_task ⟨true, some "t", false, ""⟩ StorageType.localDisk ""
        initial_video_doc).resource.status = Status.FAILED
    ∧ (process_video_task ⟨true, some "t", false, ""⟩ StorageType.localDisk ""
        initial_video_doc).resource.error_message = none
    ∧ (update_video_status initial_video_doc Status.FAILED 100 "boom" 0).error_message = none := by
  decide

/-- Claim C2 (amended): a terminal status write persists the status and
removes the three transient fields, but leaves the record's error field
unchanged — the supplied error text is not persisted by the tracker (routes
that do persist an error do it through a separate document update). -/
theorem claim_C2_terminal_write_frame (r : Resource) (outcome : Status)
    (p : Nat) (e : String) (t : Nat) (h : outcome ≠ Status.PROCESSING) :
    (update_video_status r outcome p e t).status = outcome
    ∧ (update_video_status r outcome p e t).progress = none
    ∧ (update_video_status r outcome p e t).current_step = none
    ∧ (update_video_status r outcome p e t).estimated_time_remaining = none
    ∧ (update_video_status r outcome p e t).error_message = r.error_message := by
  simp [update_video_status, h]

/-- Witness for C2's amended theorem at a concrete terminal write. -/
theorem claim_C2_terminal_write_frame_witness :
    Status.FAILED ≠ Status.PROCESSING
    ∧ ((update_video_status initial_video_doc Status.FAILED 100 "boom" 0).status = Status.FAILED
      ∧ (update_video_status initial_video_doc Status.FAILED 100 "boom" 0).progress = none
      ∧ (update_video_status initial_video_doc Status.FAILED 100 "boom" 0).current_step = none
      ∧ (update_video_status initial_video_doc Status.FAILED 100 "boom" 0).estimated_time_remaining = none
      ∧ (update_video_status initial_video_doc Status.FAILED 100 "boom" 0).error_message
          = initial_video_doc.error_message) :=
  ⟨by decide,
   claim_C2_terminal_write_frame initial_video_doc Status.FAILED 100 "boom" 0 (by decide)⟩

/-! ## Claim C4 -/

/-- A ten-word plain-text document. -/
def ten_word_content : String :=
  "one two three four five six seven eight nine ten"

/-- Claim C4 (counterexample): uploading a 10-word plain-text document does
produce one whole-content segment with word count 10 and terminal COMPLETE,
but the document path writes NO embedding record into the vector store — the
number indexed is 0, not 1. -/
theorem claim_C4_no_embedding_counterexample :
    (upload_resource_document ⟨some ten_word_content⟩ ResourceType.txt
        initial_document_doc).transcript = some ([⟨0, 0, ten_word_content⟩], 10)
    ∧ (upload_resource_document ⟨some ten_word_content⟩ ResourceType.txt
        initial_document_doc).resource.status = Status.COMPLETE
    ∧ (upload_resource_document ⟨some ten_word_content⟩ ResourceType.txt
        initial_document_doc).indexed_embeddings = 0
    ∧ (upload_resource_document ⟨some ten_word_content⟩ ResourceType.txt
        initial_document_doc).indexed_embeddings ≠ 1 := by
  decide

/-- Claim C4 (amended): a successful plain-text upload stores exactly one
segment spanning the whole content, with the content's word count (10 for a
10-word text), and ends COMPLETE — but the document path performs no chunking
and indexes zero embedding records into the vector store. -/
theorem claim_C4_document_upload (env : DocEnv) (content : String)
    (h : env.extracted = some content) :
    (upload_resource_document env ResourceType.txt initial_document_doc).transcript
        = some ([⟨0, 0, content⟩], count_words content)
    ∧ (upload_resource_document env ResourceType.txt initial_document_doc).resource.status
        = Status.COMPLETE
    ∧ (upload_resource_document env ResourceType.txt initial_document_doc).indexed_embeddings
        = 0 := by
  simp [upload_resource_document, process_document, save_document_content, h]

/-- Witness for C4's amended theorem at the 10-word document. -/
theorem claim_C4_document_upload_witness :
    (DocEnv.mk (some ten_word_content)).extracted = some ten_word_content
    ∧ count_words ten_word_content = 10
    ∧ ((upload_resource_document ⟨some ten_word_content⟩ ResourceType.txt
          initial_document_doc).transcript
        = some ([⟨0, 0, ten_word_content⟩], count_words ten_word_content)
      ∧ (upload_resource_document ⟨some ten_word_content⟩ ResourceType.txt
          initial_document_doc).resource.status = Status.COMPLETE
      ∧ (upload_resource_document ⟨some ten_word_content⟩ ResourceType.txt
          initial_document_doc).indexed_embeddings = 0) :=
  ⟨rfl, by decide, claim_C4_document_upload ⟨some ten_word_content⟩ ten_word_content rfl⟩

/-! ## Claim C5 -/

/-- Claim C5 (counterexample): a txt upload whose extraction fails (reader
returns nothing, e.g. source file missing) creates no transcript but is still
marked COMPLETE — not FAILED — on both the queued and the sync document
routes. -/
theorem claim_C5_swallowed_failure_counterexample :
    (upload_resource_document ⟨none⟩ ResourceType.txt initial_document_doc).transcript = none
    ∧ (upload_resource_document ⟨none⟩ ResourceType.txt initial_document_doc).resource.status
        = Status.COMPLETE
    ∧ (upload_resource_document ⟨none⟩ ResourceType.txt initial_document_doc).resource.status
        ≠ Status.FAILED
    ∧ (upload_resource_sync_document ⟨none⟩ ResourceType.txt initial_document_doc).transcript = none
    ∧ (upload_resource_sync_document ⟨none⟩ ResourceType.txt initial_document_doc).resource.status
        = Status.COMPLETE := by
  decide

/-- Claim C5 (amended): when document content extraction fails, no transcript
is created, but the attempt is not fatal: both document upload routes mark the
resource COMPLETE, never FAILED. -/
theorem claim_C5_extraction_failure_not_fatal (env : DocEnv) (ft : ResourceType)
    (r0 : Resource) (h : process_document env ft = none) :
    (upload_resource_document env ft r0).transcript = none
    ∧ (upload_resource_document env ft r0).resource.status = Status.COMPLETE
    ∧ (upload_resource_sync_document env ft r0).transcript = none
    ∧ (upload_resource_sync_document env ft r0).resource.status = Status.COMPLETE := by
  simp [upload_resource_document, upload_resource_sync_document, h]

/-- Witness for C5's amended theorem at a concrete missing-source upload. -/
theorem claim_C5_extraction_failure_not_fatal_witness :
    process_document ⟨none⟩ ResourceType.txt = none
    ∧ ((upload_resource_document ⟨none⟩ ResourceType.txt initial_document_doc).transcript = none
      ∧ (upload_resource_document ⟨none⟩ ResourceType.txt initial_document_doc).resource.status
          = Status.COMPLETE
      ∧ (upload_resource_sync_document ⟨none⟩ ResourceType.txt initial_document_doc).transcript = none
      ∧ (upload_resource_sync_document ⟨none⟩ ResourceType.txt initial_document_doc).resource.status
          = Status.COMPLETE) :=
  ⟨rfl, claim_C5_extraction_failure_not_fatal ⟨none⟩ ResourceType.txt initial_document_doc rfl⟩

/-! ## Claim C3 -/

/-- Claim C3 (counterexample): in the queued (Celery) execution path, a local
video whose file is missing at the storage locator does NOT fail: the task
performs no existence check, the transcription backend quietly returns
nothing, and the attempt degrades to the placeholder segment and ends
COMPLETE with no error. -/
theorem claim_C3_celery_no_existence_check_counterexample :
    (process_video_task ⟨false, none, false, ""⟩ StorageType.localDisk
        "uploads/videos/v.mp4" initial_video_doc).resource.status = Status.COMPLETE
    ∧ (process_video_task ⟨false, none, false, ""⟩ StorageType.localDisk
        "uploads/videos/v.mp4" initial_video_doc).resource.status ≠ Status.FAILED
    ∧ (process_video_task ⟨false, none, false, ""⟩ StorageType.localDisk
        "uploads/videos/v.mp4" initial_video_doc).transcript
        = some [⟨0, 1, "Video processing failed"⟩] := by
  decide

/-- Claim C3 (amended): only the synchronous path verifies that the media
file exists — there a missing file aborts the attempt before any further
stage, the resource ends FAILED with an error mentioning "does not exist" and
no transcript; the queued (Celery) path has no existence check and instead
completes with the placeholder transcript. -/
theorem claim_C3_missing_file_paths (env : VideoEnv) (url : String)
    (r0 : Resource) (hu : url ≠ "") (hf : env.file_exists = false)
    (hr : env.rag_raises = false) :
    ((upload_video_sync_process env StorageType.localDisk url r0).resource.status
        = Status.FAILED
      ∧ (∃ msg, (upload_video_sync_process env StorageType.localDisk url r0).resource.error_message
            = some msg ∧ mentions msg "does not exist")
      ∧ (upload_video_sync_process env StorageType.localDisk url r0).transcript = none
      ∧ (upload_video_sync_process env StorageType.localDisk url r0).writes
          = [start_write, fail_write ("Video file does not exist at path: " ++ url)])
    ∧ ((process_video_task env StorageType.localDisk url r0).resource.status
        = Status.COMPLETE
      ∧ (process_video_task env StorageType.localDisk url r0).transcript
          = some [⟨0, 1, "Video processing failed"⟩]) := by
  have hsync : sync_local_video_content env url
      = Except.error ("Video file does not exist at path: " ++ url) := by
    simp [sync_local_video_content, hu, hf]
  have htask : task_local_video_content env url = Except.ok failed_video_content := by
    simp [task_local_video_content, hu, process_video_for_transcription, hf]
  refine ⟨⟨?_, ⟨_, ?_, does_not_exist_msg_mentions url⟩, ?_, ?_⟩, ?_, ?_⟩ <;>
    simp [upload_video_sync_process, process_video_task, hsync, htask, hr,
      update_video_status, failed_video_content]

/-- Witness for C3's amended theorem at a concrete missing local file. -/
theorem claim_C3_missing_file_paths_witness :
    ("uploads/videos/v.mp4" : String) ≠ ""
    ∧ (VideoEnv.mk false none false "").file_exists = false
    ∧ (VideoEnv.mk false none false "").rag_raises = false
    ∧ (upload_video_sync_process ⟨false, none, false, ""⟩ StorageType.localDisk
        "uploads/videos/v.mp4" initial_video_doc).resource.status = Status.FAILED
    ∧ (process_video_task ⟨false, none, false, ""⟩ StorageType.localDisk
        "uploads/videos/v.mp4" initial_video_doc).resource.status = Status.COMPLETE := by
  refine ⟨by decide, rfl, rfl, ?_, ?_⟩
  · exact (claim_C3_missing_file_paths ⟨false, none, false, ""⟩ "uploads/videos/v.mp4"
      initial_video_doc (by decide) rfl rfl).1.1
  · exact (claim_C3_missing_file_paths ⟨false, none, false, ""⟩ "uploads/videos/v.mp4"
      initial_video_doc (by decide) rfl rfl).2.1

/-! ## Claim C8 -/

/-- The progress arguments of the tracker writes of a run, in order. -/
def progress_of (run : PipelineRun) : List Nat :=
  run.writes.map (fun w => w.progress)

/-- The trace discipline claimed for one attempt: the written progress values
are non-decreasing; a successful attempt writes exactly (0, 30, 60, 80, 100);
and a FAILED write is only ever the last write of the attempt (no PROCESSING
update follows it). -/
def run_progress_ok (run : PipelineRun) : Prop :=
  List.Chain' (fun a b => a ≤ b) (progress_of run)
  ∧ (run.resource.status = Status.COMPLETE → progress_of run = [0, 30, 60, 80, 100])
  ∧ ∀ i, i + 1 < run.writes.length →
      (run.writes.getD i start_write).status ≠ Status.FAILED

/-- Trace discipline for an attempt failing before the transcript stage. -/
lemma run_ok_fail2 (run : PipelineRun) (e : String)
    (hw : run.writes = [start_write, fail_write e])
    (hs : run.resource.status = Status.FAILED) :
    run_progress_ok run := by
  refine ⟨?_, ?_, ?_⟩
  · rw [show progress_of run = [0, 100] by
      simp [progress_of, hw, start_write, fail_write]]
    simp [List.chain'_cons', List.chain'_singleton]
  · intro h
    rw [hs] at h
    exact absurd h (by decide)
  · intro i hi
    rw [hw] at hi ⊢
    have h0 : i = 0 := by simp at hi; omega
    subst h0
    simp [start_write]

/-- Trace discipline for an attempt failing at the indexing stage. -/
lemma run_ok_fail4 (run : PipelineRun) (e : String)
    (hw : run.writes = [start_write, extract_write, index_write, fail_write e])
    (hs : run.resource.status = Status.FAILED) :
    run_progress_ok run := by
  refine ⟨?_, ?_, ?_⟩
  · rw [show progress_of run = [0, 30, 60, 100] by
      simp [progress_of, hw, start_write, extract_write, index_write, fail_write]]
    simp [List.chain'_cons', List.chain'_singleton]
  · intro h
    rw [hs] at h
    exact absurd h (by decide)
  · intro i hi
    rw [hw] at hi ⊢
    have h3 : i < 3 := by simp at hi; omega
    interval_cases i <;> simp [start_write, extract_write, index_write]

/-- Trace discipline for a successful attempt. -/
lemma run_ok_success (run : PipelineRun)
    (hw : run.writes
      = [start_write, extract_write, index_write, visual_write, complete_write]) :
    run_progress_ok run := by
  refine ⟨?_, ?_, ?_⟩
  · rw [show progress_of run = [0, 30, 60, 80, 100] by
      simp [progress_of, hw, start_write, extract_write, index_write,
        visual_write, complete_write]]
    simp [List.chain'_cons', List.chain'_singleton]
  · intro _
    simp [progress_of, hw, start_write, extract_write, index_write,
      visual_write, complete_write]
  · intro i hi
    rw [hw] at hi ⊢
    have h4 : i < 4 := by simp at hi; omega
    interval_cases i <;>
      simp [start_write, extract_write, index_write, visual_write]

/-- The trace discipline holds for every synchronous-route attempt. -/
lemma sync_run_progress_ok (env : VideoEnv) (st : StorageType)
    (url : String) (r0 : Resource) :
    run_progress_ok (upload_video_sync_process env st url r0) := by
  cases st with
  | drive =>
    cases hr : env.rag_raises
    · exact run_ok_success _ (by simp [upload_video_sync_process, hr])
    · exact run_ok_fail4 _ env.rag_error
        (by simp [upload_video_sync_process, hr])
        (by simp [upload_video_sync_process, hr, update_video_status])
  | localDisk =>
    by_cases hu : url = ""
    · exact run_ok_fail2 _ "No file path provided for local storage type"
        (by simp [upload_video_sync_process, sync_local_video_content, hu])
        (by simp [upload_video_sync_process, sync_local_video_content, hu,
          update_video_status])
    · cases hf : env.file_exists
      · exact run_ok_fail2 _ ("Video file does not exist at path: " ++ url)
          (by simp [upload_video_sync_process, sync_local_video_content, hu, hf])
          (by simp [upload_video_sync_process, sync_local_video_content, hu, hf,
            update_video_status])
      · cases ht : env.transcription <;> cases hr : env.rag_raises
        · exact run_ok_success _
            (by simp [upload_video_sync_process, sync_local_video_content,
              hu, hf, ht, hr])
        · exact run_ok_fail4 _ env.rag_error
            (by simp [upload_video_sync_process, sync_local_video_content,
              hu, hf, ht, hr])
            (by simp [upload_video_sync_process, sync_local_video_content,
              hu, hf, ht, hr, update_video_status])
        · exact run_ok_success _
            (by simp [upload_video_sync_process, sync_local_video_content,
              hu, hf, ht, hr])
        · exact run_ok_fail4 _ env.rag_error
            (by simp [upload_video_sync_process, sync_local_video_content,
              hu, hf, ht, hr])
            (by simp [upload_video_sync_process, sync_local_video_content,
              hu, hf, ht, hr, update_video_status])

/-- The trace discipline holds for every Celery-task attempt. -/
lemma task_run_progress_ok (env : VideoEnv) (st : StorageType)
    (url : String) (r0 : Resource) :
    run_progress_ok (process_video_task env st url r0) := by
  cases st with
  | drive =>
    cases hr : env.rag_raises
    · exact run_ok_success _ (by simp [process_video_task, hr])
    · exact run_ok_fail4 _ env.rag_error
        (by simp [process_video_task, hr])
        (by simp [process_video_task, hr, update_video_status])
  | localDisk =>
    by_cases hu : url = ""
    · exact run_ok_fail2 _ "No file path provided for local storage type"
        (by simp [process_video_task, task_local_video_content, hu])
        (by simp [process_video_task, task_local_video_content, hu,
          update_video_status])
    · cases hp : process_video_for_transcription env <;> cases hr : env.rag_raises
      · exact run_ok_success _
          (by simp [process_video_task, task_local_video_content, hu, hp, hr])
      · exact run_ok_fail4 _ env.rag_error
          (by simp [process_video_task, task_local_video_content, hu, hp, hr])
          (by simp [process_video_task, task_local_video_content, hu, hp, hr,
            update_video_status])
      · exact run_ok_success _
          (by simp [process_video_task, task_local_video_content, hu, hp, hr])
      · exact run_ok_fail4 _ env.rag_error
          (by simp [process_video_task, task_local_video_content, hu, hp, hr])
          (by simp [process_video_task, task_local_video_content, hu, hp, hr,
            update_video_status])

/-- Claim C8: in both the synchronous route and the Celery task, the progress
values written for a resource form a non-decreasing sequence; a successful
attempt writes exactly (0, 30, 60, 80, 100) ending at 100; and a failed
attempt ends at its FAILED write — no PROCESSING update is written after it
within the attempt. -/
theorem claim_C8_monotonic_progress (env : VideoEnv) (st : StorageType)
    (url : String) (r0 : Resource) :
    run_progress_ok (upload_video_sync_process env st url r0)
    ∧ run_progress_ok (process_video_task env st url r0) :=
  ⟨sync_run_progress_ok env st url r0, task_run_progress_ok env st url r0⟩

/-- Witness for C8 at a concrete successful and a concrete failing attempt. -/
theorem claim_C8_monotonic_progress_witness :
    progress_of (upload_video_sync_process ⟨true, some "hello world", false, ""⟩
        StorageType.localDisk "uploads/videos/v.mp4" initial_video_doc)
      = [0, 30, 60, 80, 100]
    ∧ ((process_video_task ⟨true, some "hello world", false, ""⟩
        StorageType.localDisk "" initial_video_doc).writes.getD 0 start_write).status
      ≠ Status.FAILED := by
  constructor
  · exact (claim_C8_monotonic_progress ⟨true, some "hello world", false, ""⟩
      StorageType.localDisk "uploads/videos/v.mp4" initial_video_doc).1.2.1 (by decide)
  · exact (claim_C8_monotonic_progress ⟨true, some "hello world", false, ""⟩
      StorageType.localDisk "" initial_video_doc).2.2.2 0 (by decide)

/-! ## Claim C6 -/

/-- A nonempty word list of at most `maxWords` words yields exactly the one
chunk consisting of the whole list. -/
lemma chunk_words_go_short (fuel m o : Nat) (ws : List String)
    (h1 : ws ≠ []) (h2 : ws.length ≤ m) (hf : 0 < fuel) :
    chunk_words_go fuel m o ws = [ws] := by
  cases fuel with
  | zero => omega
  | succ f =>
    have hne : ws.length ≠ 0 := fun h => h1 (List.length_eq_zero.mp h)
    simp [chunk_words_go, hne, h2]

/-- The first chunk of a nonempty word list starts with the list's first
`overlapWords` words. -/
lemma chunk_words_go_head (fuel m o : Nat) (ws : List String)
    (h : ws ≠ []) (hf : 0 < fuel) :
    ∃ c cs, chunk_words_go fuel m o ws = c :: cs ∧ c.take o = ws.take o := by
  cases fuel with
  | zero => omega
  | succ f =>
    have hne : ws.length ≠ 0 := fun h0 => h (List.length_eq_zero.mp h0)
    simp only [chunk_words_go, hne, if_false, reduceIte]
    by_cases h2 : ws.length ≤ m
    · exact ⟨ws, [], by simp [h2], rfl⟩
    · by_cases h3 : m ≤ o
      · exact ⟨ws, [], by simp [h2, h3], rfl⟩
      · refine ⟨ws.take m, chunk_words_go f m o (ws.drop (m - o)),
          by simp [h2, h3], ?_⟩
        rw [List.take_take, Nat.min_eq_left (Nat.le_of_not_le h3)]

/-- Consecutive chunks overlap: each chunk after the first begins with the
last `overlapWords` words of its predecessor. -/
lemma chunk_words_go_chain (m o : Nat) (ho : o < m) :
    ∀ (fuel : Nat) (ws : List String), ws.length ≤ fuel →
      List.Chain' (fun a b => b.take o = a.drop (a.length - o))
        (chunk_words_go fuel m o ws) := by
  intro fuel
  induction fuel with
  | zero =>
    intro ws _
    simp [chunk_words_go]
  | succ f ih =>
    intro ws hlen
    by_cases h1 : ws.length = 0
    · simp [chunk_words_go, h1]
    by_cases h2 : ws.length ≤ m
    · simp [chunk_words_go, h1, h2]
    have h3 : ¬ m ≤ o := Nat.not_le.mpr ho
    have hrec : chunk_words_go (f + 1) m o ws
        = ws.take m :: chunk_words_go f m o (ws.drop (m - o)) := by
      simp [chunk_words_go, h1, h2, h3]
    rw [hrec]
    have hlen' : (ws.drop (m - o)).length ≤ f := by
      rw [List.length_drop]
      omega
    have hne : ws.drop (m - o) ≠ [] := by
      intro hnil
      have := congrArg List.length hnil
      rw [List.length_drop] at this
      simp at this
      omega
    have hfpos : 0 < f := by
      have := List.length_pos.mpr hne
      omega
    refine List.chain'_cons'.mpr ⟨?_, ih (ws.drop (m - o)) hlen'⟩
    intro y hy
    obtain ⟨c, cs, hc, hco⟩ := chunk_words_go_head f m o (ws.drop (m - o)) hne hfpos
    rw [hc] at hy
    simp at hy
    subst hy
    have hlm : (ws.take m).length = m := by
      rw [List.length_take]
      omega
    rw [hlm, hco, List.drop_take]
    congr 1
    omega

/-- A string of 110 distinct two-letter words joined by single spaces: long
enough to need 3 chunks at maxWords = 50. -/
def demo_text : String :=
  String.mk (List.intercalate [' ']
    ((List.range 110).map (fun i =>
      [Char.ofNat (97 + i / 10), Char.ofNat (97 + i % 10)])))

set_option maxRecDepth 40000 in
/-- Claim C6: the chunker yields zero chunks for empty text; a text of at most
`maxWords` words yields exactly one chunk, the whole word sequence rejoined;
with overlap configured below the window size, each chunk after the first
begins with the last `overlapWords` words of its predecessor; and concretely,
a 110-word text at maxWords = 50 / overlap = 10 yields 3 chunks where chunk
2's first 10 words equal chunk 1's last 10 words. -/
theorem claim_C6_chunker :
    (∀ m o, chunk_text "" m o = [])
    ∧ (∀ t m o, words t ≠ [] → (words t).length ≤ m →
        chunk_text t m o = [String.intercalate " " (words t)])
    ∧ (∀ m o t, o < m →
        List.Chain' (fun a b => b.take o = a.drop (a.length - o))
          (chunk_words m o (words t)))
    ∧ ((chunk_text demo_text 50 10).length = 3
      ∧ (words ((chunk_text demo_text 50 10).getD 1 "")).take 10
          = (words ((chunk_text demo_text 50 10).getD 0 "")).drop
              ((words ((chunk_text demo_text 50 10).getD 0 "")).length - 10)) := by
  refine ⟨?_, ?_, ?_, ?_, ?_⟩
  · intro m o
    simp [chunk_text, chunk_words, words, words_aux, chunk_words_go]
  · intro t m o hne hlen
    have hpos : 0 < (words t).length := List.length_pos.mpr hne
    rw [chunk_text, chunk_words,
      chunk_words_go_short (words t).length m o (words t) hne hlen hpos]
    simp
  · intro m o t ho
    exact chunk_words_go_chain m o ho (words t).length (words t) le_rfl
  · decide
  · decide

/-- Witness for C6 at concrete inputs discharging each hypothesis. -/
theorem claim_C6_chunker_witness :
    words "alpha beta" ≠ []
    ∧ (words "alpha beta").length ≤ 50
    ∧ chunk_text "alpha beta" 50 10 = [String.intercalate " " (words "alpha beta")]
    ∧ (10 : Nat) < 50
    ∧ List.Chain' (fun a b => b.take 10 = a.drop (a.length - 10))
        (chunk_words 50 10 (words "alpha beta")) :=
  ⟨by decide, by decide,
   claim_C6_chunker.2.1 "alpha beta" 50 10 (by decide) (by decide),
   by decide,
   claim_C6_chunker.2.2.1 50 10 "alpha beta" (by decide)⟩

/-! ## Claim C7 -/

/-- A chunk entry of video A, used in the concrete retrieval scenarios. -/
def entry_a : VectorEntry :=
  { text := "tA", source := "video_transcript", video_id := some "vidA"
    start_time := 0, end_time := 30, segment_index := 0 }

/-- A chunk entry of video B, used in the concrete retrieval scenarios. -/
def entry_b : VectorEntry :=
  { text := "tB", source := "video_transcript", video_id := some "vidB"
    start_time := 0, end_time := 30, segment_index := 0 }

/-- Claim C7: a similarity search returns at most `top_k` results; a
video-scoped search only returns chunks whose metadata carries that video id;
the module-scoped chat filter only keeps chunks whose video id belongs to the
module's videos; a search matching nothing returns the empty list; and an
unscoped search may return chunks from different resources (concretely, both
of two indexed videos). -/
theorem claim_C7_retrieval_scoping :
    (∀ (entries : List VectorEntry) (vid : Option String) (k : Nat),
      (search_video_content entries vid k).length ≤ k)
    ∧ (∀ (entries : List VectorEntry) (vid : String) (k : Nat)
        (r : SearchResult), r ∈ search_video_content entries (some vid) k →
          r.metadata.video_id = some vid)
    ∧ (∀ (entries : List VectorEntry) (vid : String) (k : Nat),
        (∀ e ∈ entries, e.video_id ≠ some vid) →
          search_video_content entries (some vid) k = [])
    ∧ (∀ (results : List SearchResult) (ids : List String) (c : String),
        c ∈ module_filter_chunks results ids →
          ∃ r ∈ results, r.content = c
            ∧ ∃ v, r.metadata.video_id = some v ∧ v ∈ ids)
    ∧ search_video_content [entry_a, entry_b] none 5
        = [⟨"tA", entry_a⟩, ⟨"tB", entry_b⟩] := by
  refine ⟨?_, ?_, ?_, ?_, by decide⟩
  · intro entries vid k
    cases vid <;>
      simp [search_video_content, collection_query, List.length_take]
  · intro entries vid k r hr
    simp only [search_video_content, collection_query, List.mem_map] at hr
    obtain ⟨e, he, hre⟩ := hr
    have hmem := List.mem_filter.mp (List.mem_of_mem_take he)
    have hvid : e.video_id = some vid := of_decide_eq_true hmem.2
    rw [← hre]
    exact hvid
  · intro entries vid k h
    have hfil : entries.filter (fun e => e.video_id = some vid) = [] := by
      rw [List.filter_eq_nil_iff]
      intro e he
      simpa using h e he
    simp [search_video_content, collection_query, hfil]
  · intro results ids c hc
    obtain ⟨r, hr, hf⟩ := List.mem_filterMap.mp hc
    cases hmeta : r.metadata.video_id with
    | none =>
      rw [hmeta] at hf
      exact absurd hf (by simp)
    | some v =>
      rw [hmeta] at hf
      change (if v ≠ "" ∧ v ∈ ids then some r.content else none) = some c at hf
      split_ifs at hf with hv
      exact ⟨r, hr, Option.some.inj hf, v, hmeta, hv.2⟩

/-- Witness for C7 at a concrete store, search and filter. -/
theorem claim_C7_retrieval_scoping_witness :
    (⟨"tA", entry_a⟩ : SearchResult)
        ∈ search_video_content [entry_a, entry_b] (some "vidA") 5
    ∧ (⟨"tA", entry_a⟩ : SearchResult).metadata.video_id = some "vidA"
    ∧ "tA" ∈ module_filter_chunks [⟨"tA", entry_a⟩] ["vidA"]
    ∧ (∃ r ∈ [(⟨"tA", entry_a⟩ : SearchResult)], r.content = "tA"
        ∧ ∃ v, r.metadata.video_id = some v ∧ v ∈ ["vidA"]) :=
  ⟨by decide,
   claim_C7_retrieval_scoping.2.1 [entry_a, entry_b] "vidA" 5 ⟨"tA", entry_a⟩ (by decide),
   by decide,
   claim_C7_retrieval_scoping.2.2.2.1 [⟨"tA", entry_a⟩] ["vidA"] "tA" (by decide)⟩

/-! ## Claim C9 -/

/-- A vector-store chunk entry for resource/video "r1". -/
def entry_r1 : VectorEntry :=
  { text := "chunk of r1", source := "video_transcript", video_id := some "r1"
    start_time := 0, end_time := 30, segment_index := 0 }

/-- A demonstration state: resource/video "r1" has a transcript, a summary, a
quiz and one indexed embedding; "r2" owns an unrelated transcript. -/
def purge_demo_state : SystemState :=
  { resources := ["r1", "r2"], videos := ["r1"]
    transcripts := [⟨"r1"⟩, ⟨"r2"⟩], summaries := [⟨"r1"⟩], quizzes := [⟨"r1"⟩]
    vector_entries := [entry_r1] }

/-- Claim C9 (counterexample): deleting resource "r1" (or video "r1") leaves
its embedding record in the vector store, and a search scoped to the deleted
resource still returns that chunk — embeddings are not purged. -/
theorem claim_C9_embeddings_not_purged_counterexample :
    (delete_resource purge_demo_state "r1").vector_entries = [entry_r1]
    ∧ search_video_content (delete_resource purge_demo_state "r1").vector_entries
        (some "r1") 5 = [⟨"chunk of r1", entry_r1⟩]
    ∧ search_video_content (delete_resource purge_demo_state "r1").vector_entries
        (some "r1") 5 ≠ []
    ∧ (delete_video purge_demo_state "r1").vector_entries = [entry_r1] := by
  decide

/-- Claim C9 (amended): deleting a resource purges its record and its
transcripts, summaries and quizzes (deleting a video purges its transcripts
and summaries), but the vector store is untouched: every embedding record,
including those of the deleted resource, remains. -/
theorem claim_C9_delete_purges_relational_only (st : SystemState) (rid : String) :
    (delete_resource st rid).vector_entries = st.vector_entries
    ∧ (∀ r ∈ (delete_resource st rid).resources, r ≠ rid)
    ∧ (∀ t ∈ (delete_resource st rid).transcripts, t.owner_id ≠ rid)
    ∧ (∀ s ∈ (delete_resource st rid).summaries, s.owner_id ≠ rid)
    ∧ (∀ q ∈ (delete_resource st rid).quizzes, q.owner_id ≠ rid)
    ∧ (delete_video st rid).vector_entries = st.vector_entries
    ∧ (∀ v ∈ (delete_video st rid).videos, v ≠ rid)
    ∧ (∀ t ∈ (delete_video st rid).transcripts, t.owner_id ≠ rid)
    ∧ (∀ s ∈ (delete_video st rid).summaries, s.owner_id ≠ rid) := by
  refine ⟨rfl, ?_, ?_, ?_, ?_, rfl, ?_, ?_, ?_⟩ <;>
    · intro x hx
      exact of_decide_eq_true (List.mem_filter.mp hx).2

/-- Witness for C9's amended theorem at a concrete state. -/
theorem claim_C9_delete_purges_relational_only_witness :
    (delete_resource purge_demo_state "r1").vector_entries
        = purge_demo_state.vector_entries
    ∧ (⟨"r2"⟩ : OwnedDoc) ∈ (delete_resource purge_demo_state "r1").transcripts
    ∧ (⟨"r2"⟩ : OwnedDoc).owner_id ≠ "r1" :=
  ⟨(claim_C9_delete_purges_relational_only purge_demo_state "r1").1,
   by decide,
   (claim_C9_delete_purges_relational_only purge_demo_state "r1").2.2.1
     ⟨"r2"⟩ (by decide)⟩

end EduAssist
